import Mathlib

/-!
Shallow embedding of the shifumi-bot match engine and analytics engine.

The `games` table (`src/lib/database.py`, `init_tables`) is modelled as a
`List GameRow`; SQL `NULL`able columns are `Option` fields.  Timestamps are
`Nat` ticks ordered by `≤`; `EXTRACT(YEAR FROM ts)` is modelled by an
explicit function `yearOf : Nat → Nat` passed to every analytics query
together with the query instant `today` (`CURRENT_DATE`).

Percentages (`win_rate`, `play_rate`) are represented as integer tenths of
a percent (75.0% is `750`), so that Postgres' `ROUND(x, 1)`
(half away from zero, here on nonnegative values) and Python's `round`
become exact natural-number computations.
-/

namespace Shifumi

/-- The `Gesture` enum of `src/lib/types.py`. -/
inductive Gesture
  | ROCK
  | PAPER
  | SCISSORS
deriving DecidableEq, Repr

/-- `Gesture.value`: the string stored in the database for each gesture. -/
def Gesture.value : Gesture → String
  | .ROCK => "ROCK"
  | .PAPER => "PAPER"
  | .SCISSORS => "SCISSORS"

/-- Result of resolving two gestures, as decided by the completion handler. -/
inductive Outcome
  | player1Wins
  | player2Wins
  | draw
deriving DecidableEq, Repr

/-- The winner-determination chain of `src/api/response.py` (`do_POST`,
both the challenge branch and the open-game branch use this exact
if/elif/else over the two gestures). -/
def resolveOutcome (move1 move2 : Gesture) : Outcome :=
  if move1 = move2 then .draw
  else if (move1 = .ROCK ∧ move2 = .SCISSORS) ∨
          (move1 = .PAPER ∧ move2 = .ROCK) ∨
          (move1 = .SCISSORS ∧ move2 = .PAPER) then .player1Wins
  else .player2Wins

/-- The winner-determination chain applied to the stored move strings
(`response.py` converts the stored string back through `Gesture(...)`
before comparing; on the gesture strings this is string comparison). -/
def resolveOutcomeStr (move1 move2 : String) : Outcome :=
  if move1 = move2 then .draw
  else if (move1 = "ROCK" ∧ move2 = "SCISSORS") ∨
          (move1 = "PAPER" ∧ move2 = "ROCK") ∨
          (move1 = "SCISSORS" ∧ move2 = "PAPER") then .player1Wins
  else .player2Wins

/-- One row of the `games` table (`init_tables` in `src/lib/database.py`). -/
structure GameRow where
  id : Nat
  channel_id : String
  channel_name : String
  player1_id : String
  player1_name : String
  player1_move : String
  player2_id : Option String
  player2_name : Option String
  player2_move : Option String
  status : String
  created_at : Nat
deriving DecidableEq, Repr

/-- `create_game` (`src/lib/database.py`): INSERT a new row; `status`
defaults to `'pending'` and `player2_move` to NULL.  `nextId` models the
SERIAL id and `now` the `created_at` default.  Returns the new table and
the id handed back by `RETURNING id`. -/
def create_game (db : List GameRow) (nextId now : Nat)
    (channel_id channel_name player_id player_name move : String)
    (opponent_id opponent_name : Option String) : List GameRow × Nat :=
  (db ++ [{ id := nextId, channel_id := channel_id, channel_name := channel_name,
            player1_id := player_id, player1_name := player_name,
            player1_move := move, player2_id := opponent_id,
            player2_name := opponent_name, player2_move := none,
            status := "pending", created_at := now }], nextId)

/-- `update_game` (`src/lib/database.py`): `UPDATE games SET player2_* ,
status = 'complete' WHERE id = %s`.  Note: the WHERE clause checks only
the id — there is no `status = 'pending'` condition. -/
def update_game (db : List GameRow) (game_id : Nat)
    (player2_id player2_name move : String) : List GameRow :=
  db.map fun g =>
    if g.id = game_id then
      { g with player2_id := some player2_id, player2_name := some player2_name,
               player2_move := some move, status := "complete" }
    else g

/-- The WHERE clause of `get_pending_game`: same channel, `player2_id IS
NULL`, `status = 'pending'`. -/
def pendingOpenIn (channel_id : String) (g : GameRow) : Bool :=
  g.channel_id == channel_id && g.player2_id == none && g.status == "pending"

/-- `ORDER BY created_at DESC LIMIT 1` over a row list: a row carrying the
maximal `created_at` (first such row wins ties, which SQL leaves
unspecified). -/
def mostRecent (rows : List GameRow) : Option GameRow :=
  rows.foldl
    (fun acc g =>
      match acc with
      | none => some g
      | some h => if h.created_at < g.created_at then some g else some h)
    none

/-- `get_pending_game` (`src/lib/database.py`): most recent unfinished
non-challenge game in a channel, as the SELECTed tuple
`(id, player1_id, player1_move, player2_id, player2_move)`. -/
def get_pending_game (db : List GameRow) (channel_id : String) :
    Option (Nat × String × String × Option String × Option String) :=
  (mostRecent (db.filter (pendingOpenIn channel_id))).map fun g =>
    (g.id, g.player1_id, g.player1_move, g.player2_id, g.player2_move)

/-- The WHERE clause of `get_pending_challenge`: the (challenger, target)
pair in either order, `player2_move IS NULL`, `status = 'pending'`.
There is no channel condition. -/
def pendingChallengeBetween (challenger_id opponent_id : String) (g : GameRow) : Bool :=
  ((g.player1_id == challenger_id && g.player2_id == some opponent_id) ||
   (g.player1_id == opponent_id && g.player2_id == some challenger_id)) &&
  g.player2_move == none && g.status == "pending"

/-- `get_pending_challenge` (`src/lib/database.py`): most recent pending
challenge between two players, as the tuple `(id, player1_id, player1_move)`. -/
def get_pending_challenge (db : List GameRow) (challenger_id opponent_id : String) :
    Option (Nat × String × String) :=
  (mostRecent (db.filter (pendingChallengeBetween challenger_id opponent_id))).map
    fun g => (g.id, g.player1_id, g.player1_move)

/-- `get_game_by_id` (`src/lib/database.py`): a game by id provided it is
still `'pending'`. -/
def get_game_by_id (db : List GameRow) (game_id : Nat) :
    Option (Nat × String × String × Option String × Option String) :=
  (db.find? fun g => g.id == game_id && g.status == "pending").map fun g =>
    (g.id, g.player1_id, g.player1_move, g.player2_id, g.player2_move)

/-- Python `' ' in action_value` (`src/api/response.py`). -/
def hasSpace (s : String) : Bool :=
  s.data.contains ' '

/-- Python `action_value.split()[0]`: the first space-separated token
(leading separators skipped, as Python's `str.split` does). -/
def firstToken (s : String) : String :=
  ⟨(s.data.dropWhile fun c => c = ' ').takeWhile fun c => c ≠ ' '⟩

/-- The user-visible outcomes of the button-interaction handler
(`src/api/response.py`), abstracting the Slack block formatting. -/
inductive RespMsg
  | challengeResult (game_id : Nat) (challenger_id user_id : String) (outcome : Outcome)
  | challengeNotFound
  | selfPlayRejected
  | gameResult (game_id : Nat) (player1_id user_id : String) (outcome : Outcome)
  | gameNotFound
deriving DecidableEq, Repr

/-- The state-relevant core of `handler.do_POST` in `src/api/response.py`,
after the move has been parsed from `action_id`: if the button value
contains a space it is treated as a challenge response `"userid MOVE"`
(lookup by player pair, then `update_game`); otherwise the most recent
open game of the interaction channel is completed, with a self-play check
on that branch only.  Returns the new table and the reported message. -/
def respond (db : List GameRow) (channel_id user_id user_name : String)
    (move : Gesture) (action_value : String) : List GameRow × RespMsg :=
  if hasSpace action_value then
    let challenger_id := firstToken action_value
    match get_pending_challenge db challenger_id user_id with
    | some (game_id, chal_id, chal_move) =>
        (update_game db game_id user_id user_name move.value,
         .challengeResult game_id chal_id user_id (resolveOutcomeStr chal_move move.value))
    | none => (db, .challengeNotFound)
  else
    match get_pending_game db channel_id with
    | some (game_id, player1_id, player1_move, _, _) =>
        if player1_id = user_id then (db, .selfPlayRejected)
        else
          (update_game db game_id user_id user_name move.value,
           .gameResult game_id player1_id user_id (resolveOutcomeStr player1_move move.value))
    | none => (db, .gameNotFound)

/-- Store states reachable through the operations the handlers actually
perform on the `games` table: `create_game` as called by
`src/api/shifumi.py` (open game: no opponent; challenge: opponent id set,
opponent name always `None`), and `update_game` as called by
`src/api/response.py` (always with a parsed `Gesture`'s `.value`).
The second component is the SERIAL id counter. -/
inductive Reachable : List GameRow → Nat → Prop
  | init : Reachable [] 1
  | create (db : List GameRow) (n : Nat) (now : Nat)
      (channel_id channel_name player_id player_name : String) (move : Gesture)
      (opponent_id : Option String) :
      Reachable db n →
      Reachable (create_game db n now channel_id channel_name player_id player_name
        move.value opponent_id none).1 (n + 1)
  | complete (db : List GameRow) (n : Nat) (game_id : Nat)
      (player2_id player2_name : String) (move : Gesture) :
      Reachable db n →
      Reachable (update_game db game_id player2_id player2_name move.value) n

/-! ### Analytics engine (`get_leaderboard`, `get_unranked_players`,
`get_user_stats` in `src/lib/database.py`)

`EXTRACT(YEAR FROM created_at) = EXTRACT(YEAR FROM CURRENT_DATE)` is
modelled by `yearOf g.created_at = yearOf today` for an arbitrary
`yearOf : Nat → Nat` and query instant `today`. -/

/-- `status = 'complete' AND` the current-year condition, shared by every
analytics query. -/
def cty (yearOf : Nat → Nat) (today : Nat) (g : GameRow) : Bool :=
  g.status == "complete" && yearOf g.created_at == yearOf today

/-- The SQL first-player-wins condition (`player1_move = 'ROCK' AND
player2_move = 'SCISSORS' OR ...`); comparisons with NULL are false. -/
def p1Beats (g : GameRow) : Bool :=
  (g.player1_move == "ROCK" && g.player2_move == some "SCISSORS") ||
  (g.player1_move == "PAPER" && g.player2_move == some "ROCK") ||
  (g.player1_move == "SCISSORS" && g.player2_move == some "PAPER")

/-- The SQL second-player-wins condition. -/
def p2Beats (g : GameRow) : Bool :=
  (g.player2_move == some "ROCK" && g.player1_move == "SCISSORS") ||
  (g.player2_move == some "PAPER" && g.player1_move == "ROCK") ||
  (g.player2_move == some "SCISSORS" && g.player1_move == "PAPER")

/-- The SQL draw condition `player1_move = player2_move` (false on NULL). -/
def drawRow (g : GameRow) : Bool :=
  g.player2_move == some g.player1_move

/-- One row of the `game_results` CTEs: winner/loser ids and names (all
nullable in SQL) plus the result tag. -/
structure ResultRow where
  winner_id : Option String
  loser_id : Option String
  winner_name : Option String
  loser_name : Option String
  result : String
deriving DecidableEq, Repr

/-- The `game_results` CTE of `get_leaderboard`: first-player wins, then
second-player wins, then a draw row from each side, over completed
current-year games (UNION ALL of the four SELECTs). -/
def lb_game_results (yearOf : Nat → Nat) (today : Nat) (db : List GameRow) :
    List ResultRow :=
  (db.filterMap fun g =>
    if cty yearOf today g && p1Beats g then
      some ⟨some g.player1_id, g.player2_id, some g.player1_name, g.player2_name, "WIN"⟩
    else none) ++
  (db.filterMap fun g =>
    if cty yearOf today g && p2Beats g then
      some ⟨g.player2_id, some g.player1_id, g.player2_name, some g.player1_name, "WIN"⟩
    else none) ++
  (db.filterMap fun g =>
    if cty yearOf today g && drawRow g then
      some ⟨some g.player1_id, g.player2_id, some g.player1_name, g.player2_name, "DRAW"⟩
    else none) ++
  (db.filterMap fun g =>
    if cty yearOf today g && drawRow g then
      some ⟨g.player2_id, some g.player1_id, g.player2_name, some g.player1_name, "DRAW"⟩
    else none)

/-- One row of the `all_results` derived table of `get_leaderboard`:
a player occurrence with result `'WIN'`/`'DRAW'`, or NULL for the loser
side of a win. -/
structure PRow where
  player_id : Option String
  player_name : Option String
  result : Option String
deriving DecidableEq, Repr

/-- The `all_results` derived table: every winner-side occurrence keeps its
result, and each `'WIN'` row also contributes a NULL-result loser
occurrence (counted as a loss). -/
def lb_all_results (rows : List ResultRow) : List PRow :=
  (rows.map fun r => ⟨r.winner_id, r.winner_name, some r.result⟩) ++
  ((rows.filter fun r => r.result == "WIN").map fun r =>
    ⟨r.loser_id, r.loser_name, none⟩)

/-- `COUNT(CASE WHEN result = 'WIN' THEN 1 END)` for one
`(player_id, player_name)` group. -/
def keyWins (rows : List PRow) (k : Option String × Option String) : Nat :=
  rows.countP fun r =>
    r.player_id == k.1 && r.player_name == k.2 && r.result == some "WIN"

/-- `COUNT(CASE WHEN result = 'DRAW' THEN 1 END)` for one group. -/
def keyDraws (rows : List PRow) (k : Option String × Option String) : Nat :=
  rows.countP fun r =>
    r.player_id == k.1 && r.player_name == k.2 && r.result == some "DRAW"

/-- `COUNT(CASE WHEN result IS NULL THEN 1 END)` for one group. -/
def keyLosses (rows : List PRow) (k : Option String × Option String) : Nat :=
  rows.countP fun r =>
    r.player_id == k.1 && r.player_name == k.2 && r.result == none

/-- Postgres `ROUND(num/den * 100, 1)` expressed in tenths of a percent:
`⌊(num/den*1000) + 1/2⌋ = (2000*num + den) / (2*den)` (half away from
zero equals half up on these nonnegative values). -/
def roundPct1 (num den : Nat) : Nat :=
  (2000 * num + den) / (2 * den)

/-- The leaderboard `win_rate` expression, in tenths of a percent:
`COALESCE(ROUND(wins::float / (NULLIF(wins,0) + NULLIF(losses,0)) * 100, 1), 0)`.
If `wins = 0` or `losses = 0` the NULLIF sum is NULL, so the whole
expression collapses to 0; otherwise it is `wins/(wins+losses)` rounded —
draws never enter the denominator. -/
def lbWinRate (wins losses : Nat) : Nat :=
  if wins = 0 ∨ losses = 0 then 0 else roundPct1 wins (wins + losses)

/-- Insert into a sorted list, keeping the relation `le`. -/
def insertBy {α : Type} (le : α → α → Bool) (a : α) : List α → List α
  | [] => [a]
  | b :: t => if le a b then a :: b :: t else b :: insertBy le a t

/-- Insertion sort by a Boolean relation; models SQL `ORDER BY` (the
relative order of rows equal under the sort key is unspecified in SQL). -/
def sortBy {α : Type} (le : α → α → Bool) : List α → List α
  | [] => []
  | a :: t => insertBy le a (sortBy le t)

/-- One row returned by `get_leaderboard` (`win_rate` in tenths of a
percent; the SQL `total_games = wins + losses` column is used only for
ordering and is recomputed from the fields). -/
structure LBEntry where
  player_id : Option String
  user_name : Option String
  wins : Nat
  losses : Nat
  draws : Nat
  win_rate : Nat
deriving DecidableEq, Repr

/-- `ORDER BY win_rate DESC, wins DESC, total_games DESC` as a Boolean
"comes no later than" relation (`total_games` is `wins + losses`). -/
def lbLE (a b : LBEntry) : Bool :=
  decide (b.win_rate < a.win_rate) ||
  (a.win_rate == b.win_rate &&
    (decide (b.wins < a.wins) ||
      (a.wins == b.wins && decide (b.wins + b.losses ≤ a.wins + a.losses))))

/-- `get_leaderboard` (`src/lib/database.py`): per `(player_id,
player_name)` group of `all_results`, count wins/draws/losses, keep groups
with `wins + losses + draws >= 5`, compute the win rate, and sort. -/
def get_leaderboard (yearOf : Nat → Nat) (today : Nat) (db : List GameRow) :
    List LBEntry :=
  let rows := lb_all_results (lb_game_results yearOf today db)
  let entries := ((rows.map fun r => (r.player_id, r.player_name)).dedup).filterMap
    fun k =>
      let w := keyWins rows k
      let l := keyLosses rows k
      let d := keyDraws rows k
      if 5 ≤ w + l + d then
        some ⟨k.1, k.2, w, l, d, lbWinRate w l⟩
      else none
  sortBy lbLE entries

/-- Direct count of the games a `(player_id, player_name)` occurrence wins
this year (as first player plus as second player), stated straight over
the table. -/
def winCount (yearOf : Nat → Nat) (today : Nat) (db : List GameRow)
    (pid pname : Option String) : Nat :=
  (db.countP fun g => cty yearOf today g && p1Beats g &&
    (some g.player1_id == pid) && (some g.player1_name == pname)) +
  (db.countP fun g => cty yearOf today g && p2Beats g &&
    (g.player2_id == pid) && (g.player2_name == pname))

/-- Direct count of lost games (the other side of each win). -/
def lossCount (yearOf : Nat → Nat) (today : Nat) (db : List GameRow)
    (pid pname : Option String) : Nat :=
  (db.countP fun g => cty yearOf today g && p1Beats g &&
    (g.player2_id == pid) && (g.player2_name == pname)) +
  (db.countP fun g => cty yearOf today g && p2Beats g &&
    (some g.player1_id == pid) && (some g.player1_name == pname))

/-- Direct count of drawn games (one per participant side). -/
def drawCount (yearOf : Nat → Nat) (today : Nat) (db : List GameRow)
    (pid pname : Option String) : Nat :=
  (db.countP fun g => cty yearOf today g && drawRow g &&
    (some g.player1_id == pid) && (some g.player1_name == pname)) +
  (db.countP fun g => cty yearOf today g && drawRow g &&
    (g.player2_id == pid) && (g.player2_name == pname))

/-- One participation occurrence row of `get_unranked_players`'
`game_results` CTE. -/
structure URow where
  player_id : Option String
  player_name : Option String
deriving DecidableEq, Repr

/-- The participation CTE of `get_unranked_players`: every completed
current-year game contributes its first player, and its second player when
`player2_id IS NOT NULL`. -/
def ur_rows (yearOf : Nat → Nat) (today : Nat) (db : List GameRow) : List URow :=
  (db.filterMap fun g =>
    if cty yearOf today g then some ⟨some g.player1_id, some g.player1_name⟩
    else none) ++
  (db.filterMap fun g =>
    if cty yearOf today g && g.player2_id.isSome then
      some ⟨g.player2_id, g.player2_name⟩
    else none)

/-- `COUNT(*)` of one `player_id` group of the participation CTE. -/
def urCount (rows : List URow) (pid : Option String) : Nat :=
  rows.countP fun r => r.player_id == pid

/-- Lexicographic comparison of character lists by codepoint. -/
def charListLe : List Char → List Char → Bool
  | [], _ => true
  | _ :: _, [] => false
  | a :: s, b :: t =>
      if a.toNat < b.toNat then true
      else if b.toNat < a.toNat then false
      else charListLe s t

/-- String comparison by codepoint (models SQL text ordering). -/
def strLe (s t : String) : Bool :=
  charListLe s.data t.data

/-- The greater of two strings under `strLe`. -/
def strMax (s t : String) : String :=
  if strLe s t then t else s

/-- `MAX(player_name)` over one `player_id` group (SQL MAX ignores NULLs;
string comparison modelled by the codepoint-lexicographic order). -/
def sqlMaxName (rows : List URow) (pid : Option String) : Option String :=
  (rows.filterMap fun r => if r.player_id == pid then r.player_name else none).foldr
    (fun s acc =>
      match acc with
      | none => some s
      | some t => some (strMax s t))
    none

/-- One row returned by `get_unranked_players`. -/
structure UREntry where
  player_id : Option String
  player_name : Option String
  games_played : Nat
  games_needed : Nat
deriving DecidableEq, Repr

/-- Ascending name comparison with NULLs last (Postgres default for ASC). -/
def nameLe : Option String → Option String → Bool
  | some s, some t => strLe s t
  | some _, none => true
  | none, none => true
  | none, some _ => false

/-- `ORDER BY COUNT(*) DESC, MAX(player_name)` as a Boolean relation. -/
def urLE (a b : UREntry) : Bool :=
  decide (b.games_played < a.games_played) ||
  (a.games_played == b.games_played && nameLe a.player_name b.player_name)

/-- `get_unranked_players` (`src/lib/database.py`): group the participation
rows by `player_id`, keep groups with `COUNT(*) < 5`, report `COUNT(*)`
and `5 - COUNT(*)`, and sort. -/
def get_unranked_players (yearOf : Nat → Nat) (today : Nat)
    (db : List GameRow) : List UREntry :=
  let rows := ur_rows yearOf today db
  let entries := ((rows.map fun r => r.player_id).dedup).filterMap fun pid =>
    let c := urCount rows pid
    if c < 5 then some ⟨pid, sqlMaxName rows pid, c, 5 - c⟩ else none
  sortBy urLE entries

/-- Direct participation count of a player id in completed current-year
games, stated straight over the table. -/
def particCount (yearOf : Nat → Nat) (today : Nat) (db : List GameRow)
    (i : String) : Nat :=
  (db.countP fun g => cty yearOf today g && g.player1_id == i) +
  (db.countP fun g => cty yearOf today g && g.player2_id == some i)

/-- The `game_results` CTE of `get_user_stats`: all first-player wins, all
second-player wins (both unfiltered by user), and the user's draws from
either seat. -/
def us_game_results (yearOf : Nat → Nat) (today : Nat) (user_id : String)
    (db : List GameRow) : List ResultRow :=
  (db.filterMap fun g =>
    if cty yearOf today g && p1Beats g then
      some ⟨some g.player1_id, g.player2_id, some g.player1_name, g.player2_name, "WIN"⟩
    else none) ++
  (db.filterMap fun g =>
    if cty yearOf today g && p2Beats g then
      some ⟨g.player2_id, some g.player1_id, g.player2_name, some g.player1_name, "WIN"⟩
    else none) ++
  (db.filterMap fun g =>
    if (g.player1_id == user_id) && cty yearOf today g && drawRow g then
      some ⟨some g.player1_id, g.player2_id, some g.player1_name, g.player2_name, "DRAW"⟩
    else none) ++
  (db.filterMap fun g =>
    if (g.player2_id == some user_id) && cty yearOf today g && drawRow g then
      some ⟨g.player2_id, some g.player1_id, g.player2_name, some g.player1_name, "DRAW"⟩
    else none)

/-- `GROUP BY key ORDER BY COUNT(*) DESC LIMIT 1` over a selection:
the first key (in group order) with maximal count, with its count. -/
def topGroup (sel : List ResultRow) (key : ResultRow → Option String × Option String) :
    Option ((Option String × Option String) × Nat) :=
  ((sel.map key).dedup.foldl
    (fun acc k =>
      match acc with
      | none => some k
      | some k' =>
          if (sel.countP fun r => key r == k') < (sel.countP fun r => key r == k)
          then some k else acc)
    none).map
    fun k => (k, sel.countP fun r => key r == k)

/-- An opponent record of `get_user_stats` (`nemesis` / `best_against`). -/
structure OppRec where
  user_id : Option String
  user_name : Option String
  wins : Nat
deriving DecidableEq, Repr

/-- The `most_draws` record of `get_user_stats`: built unconditionally, so
its fields carry the SQL NULLs when no draw exists. -/
structure MDRec where
  user_id : Option String
  user_name : Option String
  draws : Option Nat
deriving DecidableEq, Repr

/-- The value returned by `get_user_stats`. -/
structure UserStats where
  wins : Nat
  losses : Nat
  draws : Nat
  total_games : Nat
  win_rate : Nat
  nemesis : Option OppRec
  best_against : Option OppRec
  most_draws : Option MDRec
deriving DecidableEq, Repr

/-- Python truthiness of a nullable id (`if nemesis_id`): false on NULL
and on the empty string. -/
def pyTruthyId : Option String → Bool
  | none => false
  | some s => !(s == "")

/-- Python `round(num/den * 100, 1)` in tenths of a percent: exact
banker's rounding on the rational value. -/
def pyRoundPct1 (num den : Nat) : Nat :=
  let q := (1000 * num) / den
  let r := (1000 * num) % den
  if 2 * r < den then q
  else if den < 2 * r then q + 1
  else if q % 2 = 0 then q else q + 1

/-- `get_user_stats` (`src/lib/database.py`): overall wins/losses/draws of
the user, win rate over all their games, and the three derived
relationships.  `nemesis` and `best_against` are `None` unless their id is
truthy; `most_draws` is built unconditionally (its dict is never `None`). -/
def get_user_stats (yearOf : Nat → Nat) (today : Nat) (user_id : String)
    (db : List GameRow) : UserStats :=
  let rows := us_game_results yearOf today user_id db
  let filtered := rows.filter fun r =>
    r.winner_id == some user_id || r.loser_id == some user_id
  let wins := filtered.countP fun r =>
    r.winner_id == some user_id && r.result == "WIN"
  let losses := filtered.countP fun r =>
    r.loser_id == some user_id && r.result == "WIN"
  let draws := filtered.countP fun r => r.result == "DRAW"
  let total := wins + losses + draws
  let nem := topGroup
    (rows.filter fun r => r.loser_id == some user_id && r.result == "WIN")
    (fun r => (r.winner_id, r.winner_name))
  let ba := topGroup
    (rows.filter fun r => r.winner_id == some user_id && r.result == "WIN")
    (fun r => (r.loser_id, r.loser_name))
  let md := topGroup
    (rows.filter fun r => r.result == "DRAW")
    (fun r => (r.loser_id, r.loser_name))
  { wins := wins, losses := losses, draws := draws, total_games := total,
    win_rate := if 0 < total then pyRoundPct1 wins total else 0,
    nemesis :=
      match nem with
      | some (k, w) => if pyTruthyId k.1 then some ⟨k.1, k.2, w⟩ else none
      | none => none,
    best_against :=
      match ba with
      | some (k, w) => if pyTruthyId k.1 then some ⟨k.1, k.2, w⟩ else none
      | none => none,
    most_draws :=
      some (match md with
      | some (k, c) => ⟨k.1, k.2, some c⟩
      | none => ⟨none, none, none⟩) }

/-! Concrete table states used to exercise the operations. -/

/-- A completed match row (players U1 and U2, ROCK vs PAPER). -/
def exCompleted : GameRow :=
  ⟨1, "C", "general", "U1", "alice", "ROCK", some "U2", some "bob", some "PAPER", "complete", 5⟩

/-- A pending directed challenge from U1 against U2 (PAPER played). -/
def exChallenge : GameRow :=
  ⟨1, "C", "general", "U1", "alice", "PAPER", some "U2", none, none, "pending", 3⟩

/-- A pending open (non-challenge) match by U1 in channel C. -/
def exOpen : GameRow :=
  ⟨1, "C", "general", "U1", "alice", "ROCK", none, none, none, "pending", 2⟩

/-- A constant year function: every tick lies in the query year. -/
def yr0 : Nat → Nat := fun _ => 0

/-- Five completed games between A and B: A wins three (twice as first
player, once as second), loses one, draws one. -/
def exSeasonDb : List GameRow :=
  [⟨1, "C", "general", "A", "alice", "ROCK", some "B", some "bob", some "SCISSORS", "complete", 1⟩,
   ⟨2, "C", "general", "A", "alice", "PAPER", some "B", some "bob", some "ROCK", "complete", 2⟩,
   ⟨3, "C", "general", "B", "bob", "ROCK", some "A", some "alice", some "PAPER", "complete", 3⟩,
   ⟨4, "C", "general", "A", "alice", "ROCK", some "B", some "bob", some "PAPER", "complete", 4⟩,
   ⟨5, "C", "general", "A", "alice", "ROCK", some "B", some "bob", some "ROCK", "complete", 5⟩]

/-- Five completed wins by U1, recorded under two different display names
("alice" for three games, "alice2" for two), against five distinct
one-game opponents. -/
def exSplitNameDb : List GameRow :=
  [⟨1, "C", "general", "U1", "alice", "ROCK", some "B1", some "b1", some "SCISSORS", "complete", 1⟩,
   ⟨2, "C", "general", "U1", "alice", "ROCK", some "B2", some "b2", some "SCISSORS", "complete", 2⟩,
   ⟨3, "C", "general", "U1", "alice", "ROCK", some "B3", some "b3", some "SCISSORS", "complete", 3⟩,
   ⟨4, "C", "general", "U1", "alice2", "ROCK", some "B4", some "b4", some "SCISSORS", "complete", 4⟩,
   ⟨5, "C", "general", "U1", "alice2", "ROCK", some "B5", some "b5", some "SCISSORS", "complete", 5⟩]

/-- The display-name assignment of `exSeasonDb`: A is "alice", B is "bob". -/
def nmEx : String → String := fun s => if s = "A" then "alice" else "bob"

/-- A single completed decisive game: A beats B, no draws anywhere. -/
def exOneWinDb : List GameRow :=
  [⟨1, "C", "general", "A", "alice", "ROCK", some "B", some "bob", some "SCISSORS", "complete", 1⟩]

/-- The table after U1 creates an open game on an empty store. -/
def exCreatedDb : List GameRow :=
  (create_game [] 1 0 "C" "general" "U1" "alice" Gesture.ROCK.value none none).1

/-- The row produced by that creation. -/
def exCreatedRow : GameRow :=
  ⟨1, "C", "general", "U1", "alice", "ROCK", none, none, none, "pending", 0⟩

/-! ### Theorems -/

/-- Every row selected by `ORDER BY created_at DESC LIMIT 1` is a row of the
list carrying a maximal `created_at`.  Helper about the fold, with the
accumulator generalized. -/
theorem mostRecent_go_spec (l : List GameRow) :
    ∀ h : GameRow,
      ∃ g, List.foldl
          (fun acc g =>
            match acc with
            | none => some g
            | some h => if h.created_at < g.created_at then some g else some h)
          (some h) l = some g ∧
        (g = h ∨ g ∈ l) ∧ h.created_at ≤ g.created_at ∧
        ∀ x ∈ l, x.created_at ≤ g.created_at := by
  induction l with
  | nil => intro h; exact ⟨h, rfl, Or.inl rfl, le_refl _, by simp⟩
  | cons a t ih =>
    intro h
    by_cases hlt : h.created_at < a.created_at
    · obtain ⟨g, hfold, hmem, hle, hmax⟩ := ih a
      refine ⟨g, ?_, ?_, ?_, ?_⟩
      · simpa [List.foldl_cons, hlt] using hfold
      · rcases hmem with rfl | hm
        · exact Or.inr (List.mem_cons_self _ _)
        · exact Or.inr (List.mem_cons_of_mem _ hm)
      · exact le_trans (le_of_lt hlt) hle
      · intro x hx
        rcases List.mem_cons.mp hx with rfl | hx'
        · exact hle
        · exact hmax x hx'
    · obtain ⟨g, hfold, hmem, hle, hmax⟩ := ih h
      refine ⟨g, ?_, hmem.imp id (List.mem_cons_of_mem _), hle, ?_⟩
      · simpa [List.foldl_cons, hlt] using hfold
      · intro x hx
        rcases List.mem_cons.mp hx with rfl | hx'
        · exact le_trans (le_of_not_lt hlt) hle
        · exact hmax x hx'

/-- `mostRecent` returns `none` exactly on the empty list. -/
theorem mostRecent_eq_none_iff (rows : List GameRow) :
    mostRecent rows = none ↔ rows = [] := by
  cases rows with
  | nil => simp [mostRecent]
  | cons a t =>
    obtain ⟨g, hfold, -, -, -⟩ := mostRecent_go_spec t a
    simp [mostRecent, List.foldl_cons, hfold]

/-- A row returned by `mostRecent` belongs to the list and has maximal
`created_at` there. -/
theorem mostRecent_spec (rows : List GameRow) (g : GameRow)
    (h : mostRecent rows = some g) :
    g ∈ rows ∧ ∀ x ∈ rows, x.created_at ≤ g.created_at := by
  cases rows with
  | nil => simp [mostRecent] at h
  | cons a t =>
    obtain ⟨g', hfold, hmem, hle, hmax⟩ := mostRecent_go_spec t a
    have hg : g' = g := by
      have := h
      rw [mostRecent, List.foldl_cons] at this
      simp only at this
      rw [hfold] at this
      exact Option.some_injective _ this
    subst hg
    constructor
    · rcases hmem with rfl | hm
      · exact List.mem_cons_self _ _
      · exact List.mem_cons_of_mem _ hm
    · intro x hx
      rcases List.mem_cons.mp hx with rfl | hx'
      · exact hle
      · exact hmax x hx'

/-- If every member of a nonempty list equals `g`, `mostRecent` returns `g`. -/
theorem mostRecent_of_all_eq (rows : List GameRow) (g : GameRow)
    (hall : ∀ x ∈ rows, x = g) (hne : rows ≠ []) :
    mostRecent rows = some g := by
  cases hmr : mostRecent rows with
  | none => exact absurd ((mostRecent_eq_none_iff rows).mp hmr) hne
  | some g' =>
    obtain ⟨hmem, -⟩ := mostRecent_spec rows g' hmr
    rw [hall g' hmem]

/-- C1: over the nine gesture pairs, the completion handler's outcome is a
draw exactly on equal gestures, a player-1 win exactly on (ROCK, SCISSORS),
(PAPER, ROCK), (SCISSORS, PAPER), and a player-2 win on every other
distinct pair; the function is total. -/
theorem resolveOutcome_correct (g1 g2 : Gesture) :
    (resolveOutcome g1 g2 = .draw ↔ g1 = g2) ∧
    (resolveOutcome g1 g2 = .player1Wins ↔
      ((g1 = .ROCK ∧ g2 = .SCISSORS) ∨ (g1 = .PAPER ∧ g2 = .ROCK) ∨
       (g1 = .SCISSORS ∧ g2 = .PAPER))) ∧
    (resolveOutcome g1 g2 = .player2Wins ↔
      (g1 ≠ g2 ∧ ¬((g1 = .ROCK ∧ g2 = .SCISSORS) ∨ (g1 = .PAPER ∧ g2 = .ROCK) ∨
       (g1 = .SCISSORS ∧ g2 = .PAPER)))) := by
  cases g1 <;> cases g2 <;> decide

/-- C2 (amended part): `update_game` on an id that matches no stored row
leaves the table unchanged. -/
theorem update_game_nonexistent_noop (db : List GameRow) (game_id : Nat)
    (player2_id player2_name move : String)
    (h : ∀ g ∈ db, g.id ≠ game_id) :
    update_game db game_id player2_id player2_name move = db := by
  unfold update_game
  have hfix : ∀ g ∈ db,
      (if g.id = game_id then
        { g with player2_id := some player2_id, player2_name := some player2_name,
                 player2_move := some move, status := "complete" }
      else g) = id g := by
    intro g hg
    simp [h g hg]
  rw [List.map_congr_left hfix, List.map_id]

/-- Witness for `update_game_nonexistent_noop` on a one-row table. -/
theorem update_game_nonexistent_noop_witness :
    update_game [exCompleted] 2 "U3" "carol" "SCISSORS" = [exCompleted] :=
  update_game_nonexistent_noop [exCompleted] 2 "U3" "carol" "SCISSORS" (by decide)

/-- C2 counterexample: `update_game` has no status guard, so calling it on
an already-complete match id rewrites the stored player-2 fields — it is
not a no-op. -/
theorem update_game_on_complete_changes_row :
    exCompleted.status = "complete" ∧
    update_game [exCompleted] 1 "U3" "carol" "SCISSORS" ≠ [exCompleted] := by
  decide

/-- C3 counterexample: creating a directed challenge (as `shifumi.py` does,
passing the target id and `None` for the target name) yields a reachable
state with a `'pending'` row whose `player2_id` is already set — so
"pending iff player2_id, player2_name, player2_move are all null" fails. -/
theorem pending_challenge_partial_fields :
    ∃ db : List GameRow, Reachable db 2 ∧ ∃ g ∈ db,
      g.status = "pending" ∧ g.player2_id = some "U2" ∧ g.player2_move = none := by
  refine ⟨(create_game [] 1 0 "C" "general" "U1" "alice" Gesture.PAPER.value
    (some "U2") none).1, ?_, ?_⟩
  · exact Reachable.create [] 1 0 "C" "general" "U1" "alice" .PAPER (some "U2")
      Reachable.init
  · decide

/-- C3 (amended): in every reachable store, every row is `'pending'` or
`'complete'`; it is `'pending'` iff `player2_move` and `player2_name` are
both null (`player2_id` is set on pending rows exactly for directed
challenges), and `'complete'` iff `player2_id`, `player2_name` and
`player2_move` are all set. -/
theorem pending_complete_invariant (db : List GameRow) (n : Nat)
    (h : Reachable db n) :
    ∀ g ∈ db,
      (g.status = "pending" ∨ g.status = "complete") ∧
      (g.status = "pending" ↔ g.player2_move = none ∧ g.player2_name = none) ∧
      (g.status = "complete" ↔
        g.player2_id.isSome ∧ g.player2_name.isSome ∧ g.player2_move.isSome) := by
  induction h with
  | init => intro g hg; simp at hg
  | create db n now channel_id channel_name player_id player_name move oid _ ih =>
    intro g hg
    rw [create_game] at hg
    rcases List.mem_append.mp hg with hold | hnew
    · exact ih g hold
    · have hg' := List.mem_singleton.mp hnew
      subst hg'
      refine ⟨Or.inl rfl, ?_, ?_⟩ <;> simp
  | complete db n game_id p2 p2n move _ ih =>
    intro g hg
    rw [update_game] at hg
    obtain ⟨g0, hg0, hmap⟩ := List.mem_map.mp hg
    by_cases hid : g0.id = game_id
    · rw [if_pos hid] at hmap
      subst hmap
      refine ⟨Or.inr rfl, ?_, ?_⟩ <;> simp
    · rw [if_neg hid] at hmap
      subst hmap
      exact ih g0 hg0

/-- Witness for `pending_complete_invariant` on the store reached by one
open-game creation. -/
theorem pending_complete_invariant_witness :
    (exCreatedRow.status = "pending" ∨ exCreatedRow.status = "complete") ∧
    (exCreatedRow.status = "pending" ↔
      exCreatedRow.player2_move = none ∧ exCreatedRow.player2_name = none) ∧
    (exCreatedRow.status = "complete" ↔
      exCreatedRow.player2_id.isSome ∧ exCreatedRow.player2_name.isSome ∧
      exCreatedRow.player2_move.isSome) :=
  pending_complete_invariant exCreatedDb 2
    (Reachable.create [] 1 0 "C" "general" "U1" "alice" .ROCK none Reachable.init)
    exCreatedRow (by decide)

/-- C4 counterexample: the challenge-completion branch of `response.py`
performs no self-play check and `get_pending_challenge` matches the player
pair in either order, so the creator of a pending challenge can complete
it themselves: U1's own challenge resolves with player1 = player2 = U1. -/
theorem self_completion_of_own_challenge :
    ∃ g ∈ (respond [exChallenge] "C" "U1" "alice" .ROCK "U2 ROCK").1,
      g.status = "complete" ∧ g.player1_id = "U1" ∧ g.player2_id = some "U1" := by
  decide

/-- C4 (amended): on the open-match (no-space button value) branch, a
player completing their own open match is rejected with the self-play
message and the table is unchanged. -/
theorem open_path_self_play_rejected (db : List GameRow)
    (channel_id user_id user_name : String) (move : Gesture) (action_value : String)
    (t : Nat × String × String × Option String × Option String)
    (hv : hasSpace action_value = false)
    (hg : get_pending_game db channel_id = some t)
    (hself : t.2.1 = user_id) :
    respond db channel_id user_id user_name move action_value =
      (db, .selfPlayRejected) := by
  obtain ⟨gid, p1, p1m, p2, p2m⟩ := t
  simp only at hself
  simp [respond, hv, hg, hself]

/-- Witness for `open_path_self_play_rejected`: U1 pressing a move button
on their own open match. -/
theorem open_path_self_play_rejected_witness :
    respond [exOpen] "C" "U1" "alice" .PAPER "1" = ([exOpen], .selfPlayRejected) :=
  open_path_self_play_rejected [exOpen] "C" "U1" "alice" .PAPER "1"
    (1, "U1", "ROCK", none, none) (by decide) (by decide) rfl

/-- C7: `get_pending_game` returns `none` exactly when no pending
non-challenge row of the channel exists, and otherwise a pending
non-challenge row of that channel (in particular with `player2_id` null,
so never a directed challenge) whose `created_at` is maximal among the
qualifying rows. -/
theorem find_open_match_spec (db : List GameRow) (channel_id : String) :
    (get_pending_game db channel_id = none →
      ∀ g ∈ db, pendingOpenIn channel_id g = false) ∧
    (∀ gid p1 p1m p2 p2m,
      get_pending_game db channel_id = some (gid, p1, p1m, p2, p2m) →
      p2 = none ∧
      ∃ g ∈ db, pendingOpenIn channel_id g = true ∧
        g.id = gid ∧ g.player1_id = p1 ∧ g.player1_move = p1m ∧
        g.player2_id = p2 ∧ g.player2_move = p2m ∧
        ∀ g' ∈ db, pendingOpenIn channel_id g' = true →
          g'.created_at ≤ g.created_at) := by
  constructor
  · intro hnone g hg
    rw [Bool.eq_false_iff]
    intro hpend
    rw [get_pending_game, Option.map_eq_none'] at hnone
    have hmem : g ∈ db.filter (pendingOpenIn channel_id) :=
      List.mem_filter.mpr ⟨hg, hpend⟩
    rw [(mostRecent_eq_none_iff _).mp hnone] at hmem
    simp at hmem
  · intro gid p1 p1m p2 p2m hsome
    rw [get_pending_game, Option.map_eq_some'] at hsome
    obtain ⟨g, hmr, htup⟩ := hsome
    obtain ⟨hmem, hmax⟩ := mostRecent_spec _ g hmr
    have hgdb : g ∈ db := (List.mem_filter.mp hmem).1
    have hgp : pendingOpenIn channel_id g = true := (List.mem_filter.mp hmem).2
    simp only [Prod.mk.injEq] at htup
    obtain ⟨h1, h2, h3, h4, h5⟩ := htup
    have hp2 : g.player2_id = none := by
      rw [pendingOpenIn] at hgp
      simp only [Bool.and_eq_true, beq_iff_eq] at hgp
      exact hgp.1.2
    have hp2' : p2 = none := by rw [← h4]; exact hp2
    refine ⟨hp2', g, hgdb, (List.mem_filter.mp hmem).2, h1, h2, h3, h4, h5, ?_⟩
    intro g' hg' hp'
    exact hmax g' (List.mem_filter.mpr ⟨hg', hp'⟩)

/-- Witness for `find_open_match_spec`: the some-branch instantiated on a
store holding one open match and one challenge. -/
theorem find_open_match_spec_witness :
    (none : Option String) = none ∧
    ∃ g ∈ [exOpen, exChallenge], pendingOpenIn "C" g = true ∧
      g.id = 1 ∧ g.player1_id = "U1" ∧ g.player1_move = "ROCK" ∧
      g.player2_id = none ∧ g.player2_move = none ∧
      ∀ g' ∈ [exOpen, exChallenge], pendingOpenIn "C" g' = true →
        g'.created_at ≤ g.created_at :=
  (find_open_match_spec [exOpen, exChallenge] "C").2 1 "U1" "ROCK" none none
    (by decide)

/-- C9: on the open-match branch (button value without a space, as every
button produced by `shifumi.py` is), the handler's result does not depend
on the button value at all, and the match it completes is exactly the one
selected by `get_pending_game` for the interaction channel. -/
theorem open_path_value_independent (db : List GameRow)
    (channel_id user_id user_name : String) (move : Gesture) (v1 v2 : String)
    (h1 : hasSpace v1 = false) (h2 : hasSpace v2 = false) :
    respond db channel_id user_id user_name move v1 =
      respond db channel_id user_id user_name move v2 ∧
    ∀ gid p1 p1m p2 p2m,
      get_pending_game db channel_id = some (gid, p1, p1m, p2, p2m) →
      p1 ≠ user_id →
      (respond db channel_id user_id user_name move v1).1 =
        update_game db gid user_id user_name move.value := by
  constructor
  · simp [respond, h1, h2]
  · intro gid p1 p1m p2 p2m hg hne
    simp [respond, h1, hg, hne]

/-- Witness for `open_path_value_independent`: two different embedded match
ids ("1" and "999") complete the same open match. -/
theorem open_path_value_independent_witness :
    (respond [exOpen] "C" "U2" "bob" .PAPER "1" =
      respond [exOpen] "C" "U2" "bob" .PAPER "999") ∧
    (respond [exOpen] "C" "U2" "bob" .PAPER "1").1 =
      update_game [exOpen] 1 "U2" "bob" Gesture.PAPER.value := by
  obtain ⟨heq, hupd⟩ := open_path_value_independent [exOpen] "C" "U2" "bob" .PAPER
    "1" "999" (by decide) (by decide)
  exact ⟨heq, hupd 1 "U1" "ROCK" none none (by decide) (by decide)⟩

/-- C10: `get_pending_challenge` keys purely on the unordered player pair
(no channel condition): the unique pending challenge between two players
is found whatever channel it was created in, and the completion handler
resolves it identically from any interaction channel. -/
theorem challenge_lookup_channel_free (db : List GameRow) (a b : String)
    (g : GameRow) (ch ch' user_name : String) (move : Gesture) (v : String)
    (hmem : g ∈ db) (hg : pendingChallengeBetween a b g = true)
    (huniq : ∀ g' ∈ db, pendingChallengeBetween a b g' = true → g' = g)
    (hv : hasSpace v = true) (htok : firstToken v = a) :
    get_pending_challenge db a b = some (g.id, g.player1_id, g.player1_move) ∧
    respond db ch b user_name move v = respond db ch' b user_name move v ∧
    (respond db ch b user_name move v).1 =
      update_game db g.id b user_name move.value := by
  have hfil : ∀ x ∈ db.filter (pendingChallengeBetween a b), x = g := by
    intro x hx
    rw [List.mem_filter] at hx
    exact huniq x hx.1 hx.2
  have hne : db.filter (pendingChallengeBetween a b) ≠ [] := by
    intro hemp
    have : g ∈ db.filter (pendingChallengeBetween a b) :=
      List.mem_filter.mpr ⟨hmem, hg⟩
    rw [hemp] at this
    simp at this
  have hmr : mostRecent (db.filter (pendingChallengeBetween a b)) = some g :=
    mostRecent_of_all_eq _ _ hfil hne
  have hq : get_pending_challenge db a b =
      some (g.id, g.player1_id, g.player1_move) := by
    simp [get_pending_challenge, hmr]
  refine ⟨hq, ?_, ?_⟩ <;> simp [respond, hv, htok, hq]

/-- Witness for `challenge_lookup_channel_free`: U1's challenge created in
channel C is found and completed by U2 interacting from channel D. -/
theorem challenge_lookup_channel_free_witness :
    get_pending_challenge [exChallenge] "U1" "U2" = some (1, "U1", "PAPER") ∧
    respond [exChallenge] "D" "U2" "bob" .ROCK "U1 ROCK" =
      respond [exChallenge] "E" "U2" "bob" .ROCK "U1 ROCK" ∧
    (respond [exChallenge] "D" "U2" "bob" .ROCK "U1 ROCK").1 =
      update_game [exChallenge] 1 "U2" "bob" Gesture.ROCK.value :=
  challenge_lookup_channel_free [exChallenge] "U1" "U2" exChallenge "D" "E" "bob"
    .ROCK "U1 ROCK" (by decide) (by decide) (by decide) (by decide) (by decide)

/-- Counting after a guarded `filterMap` is counting the guard together
with the predicate on the produced row. -/
theorem countP_filterMap_if {α β : Type} (c : α → Bool) (f : α → β)
    (p : β → Bool) (l : List α) :
    (l.filterMap fun a => if c a then some (f a) else none).countP p =
      l.countP fun a => c a && p (f a) := by
  induction l with
  | nil => rfl
  | cons a t ih =>
    cases h : c a <;>
      simp [List.filterMap_cons, h, List.countP_cons, ih]

/-- `lbLE` is transitive. -/
theorem lbLE_trans (a b c : LBEntry) (h1 : lbLE a b = true)
    (h2 : lbLE b c = true) : lbLE a c = true := by
  rw [lbLE] at *
  simp only [Bool.or_eq_true, Bool.and_eq_true, decide_eq_true_eq,
    beq_iff_eq] at *
  omega

/-- `lbLE` is total. -/
theorem lbLE_total (a b : LBEntry) : (lbLE a b || lbLE b a) = true := by
  rw [lbLE, lbLE]
  simp only [Bool.or_eq_true, Bool.and_eq_true, decide_eq_true_eq,
    beq_iff_eq]
  omega

/-- `charListLe` is total. -/
theorem charListLe_total (s : List Char) :
    ∀ t, (charListLe s t || charListLe t s) = true := by
  induction s with
  | nil => intro t; cases t <;> simp [charListLe]
  | cons a s ih =>
    intro t
    cases t with
    | nil => simp [charListLe]
    | cons b t =>
      by_cases h1 : a.toNat < b.toNat
      · simp [charListLe, h1]
      · by_cases h2 : b.toNat < a.toNat
        · simp [charListLe, h1, h2]
        · simp [charListLe, h1, h2, ih t]

/-- `charListLe` is transitive. -/
theorem charListLe_trans (s : List Char) :
    ∀ t u, charListLe s t = true → charListLe t u = true →
      charListLe s u = true := by
  induction s with
  | nil => intro t u _ _; simp [charListLe]
  | cons a s ih =>
    intro t u h1 h2
    cases t with
    | nil => simp [charListLe] at h1
    | cons b t =>
      cases u with
      | nil => simp [charListLe] at h2
      | cons c u =>
        by_cases hab : a.toNat < b.toNat
        · by_cases hbc : b.toNat < c.toNat
          · have hac : a.toNat < c.toNat := lt_trans hab hbc
            simp [charListLe, hac]
          · by_cases hcb : c.toNat < b.toNat
            · simp [charListLe, hbc, hcb] at h2
            · have hac : a.toNat < c.toNat := by omega
              simp [charListLe, hac]
        · by_cases hba : b.toNat < a.toNat
          · simp [charListLe, hab, hba] at h1
          · by_cases hbc : b.toNat < c.toNat
            · have hac : a.toNat < c.toNat := by omega
              simp [charListLe, hac]
            · by_cases hcb : c.toNat < b.toNat
              · simp [charListLe, hbc, hcb] at h2
              · have h1' : charListLe s t = true := by
                  simpa [charListLe, hab, hba] using h1
                have h2' : charListLe t u = true := by
                  simpa [charListLe, hbc, hcb] using h2
                have hac1 : ¬ a.toNat < c.toNat := by omega
                have hac2 : ¬ c.toNat < a.toNat := by omega
                simp [charListLe, hac1, hac2, ih t u h1' h2']

/-- `strLe` is transitive. -/
theorem strLe_trans (s t u : String) (h1 : strLe s t = true)
    (h2 : strLe t u = true) : strLe s u = true :=
  charListLe_trans s.data t.data u.data h1 h2

/-- `strLe` is total. -/
theorem strLe_total (s t : String) : (strLe s t || strLe t s) = true :=
  charListLe_total s.data t.data

/-- `nameLe` is transitive. -/
theorem nameLe_trans (x y z : Option String) (h1 : nameLe x y = true)
    (h2 : nameLe y z = true) : nameLe x z = true := by
  cases x <;> cases y <;> cases z <;> simp_all [nameLe] <;>
    exact strLe_trans _ _ _ h1 h2

/-- `nameLe` is total. -/
theorem nameLe_total (x y : Option String) :
    (nameLe x y || nameLe y x) = true := by
  cases x <;> cases y <;> simp_all [nameLe]
  simpa using strLe_total _ _

/-- `urLE` is transitive. -/
theorem urLE_trans (a b c : UREntry) (h1 : urLE a b = true)
    (h2 : urLE b c = true) : urLE a c = true := by
  rw [urLE] at *
  simp only [Bool.or_eq_true, Bool.and_eq_true, decide_eq_true_eq,
    beq_iff_eq] at *
  rcases h1 with h1 | ⟨h1e, h1n⟩ <;> rcases h2 with h2 | ⟨h2e, h2n⟩
  · exact Or.inl (lt_trans h2 h1)
  · exact Or.inl (h2e ▸ h1)
  · exact Or.inl (h1e ▸ h2)
  · exact Or.inr ⟨h1e.trans h2e, nameLe_trans _ _ _ h1n h2n⟩

/-- `urLE` is total. -/
theorem urLE_total (a b : UREntry) : (urLE a b || urLE b a) = true := by
  rw [urLE, urLE]
  simp only [Bool.or_eq_true, Bool.and_eq_true, decide_eq_true_eq,
    beq_iff_eq]
  rcases Nat.lt_trichotomy a.games_played b.games_played with h | h | h
  · exact Or.inr (Or.inl h)
  · rcases Bool.or_eq_true _ _ |>.mp (nameLe_total a.player_name b.player_name)
      with hn | hn
    · exact Or.inl (Or.inr ⟨h, hn⟩)
    · exact Or.inr (Or.inr ⟨h.symm, hn⟩)
  · exact Or.inl (Or.inl h)

/-- Membership in `insertBy`. -/
theorem mem_insertBy {α : Type} (le : α → α → Bool) (a : α) (l : List α)
    (x : α) : x ∈ insertBy le a l ↔ x = a ∨ x ∈ l := by
  induction l with
  | nil => simp [insertBy]
  | cons b t ih =>
    cases h : le a b <;> simp [insertBy, h, ih] <;> tauto

/-- Membership in `sortBy`. -/
theorem mem_sortBy {α : Type} (le : α → α → Bool) (l : List α) (x : α) :
    x ∈ sortBy le l ↔ x ∈ l := by
  induction l with
  | nil => simp [sortBy]
  | cons a t ih =>
    rw [sortBy, mem_insertBy, ih, List.mem_cons]

/-- `insertBy` preserves sortedness for a transitive total relation. -/
theorem pairwise_insertBy {α : Type} (le : α → α → Bool)
    (htrans : ∀ a b c, le a b = true → le b c = true → le a c = true)
    (htotal : ∀ a b, (le a b || le b a) = true)
    (a : α) (l : List α) (hl : l.Pairwise fun x y => le x y = true) :
    (insertBy le a l).Pairwise fun x y => le x y = true := by
  induction l with
  | nil => simp [insertBy]
  | cons b t ih =>
    rcases List.pairwise_cons.mp hl with ⟨hb, ht⟩
    cases h : le a b with
    | true =>
      rw [insertBy, if_pos h]
      refine List.pairwise_cons.mpr ⟨?_, hl⟩
      intro x hx
      rcases List.mem_cons.mp hx with rfl | hx'
      · exact h
      · exact htrans a b x h (hb x hx')
    | false =>
      have hba : le b a = true := by
        have := htotal a b
        rw [h] at this
        simpa using this
      rw [insertBy, if_neg (by simp [h])]
      refine List.pairwise_cons.mpr ⟨?_, ih ht⟩
      intro x hx
      rcases (mem_insertBy le a t x).mp hx with rfl | hx'
      · exact hba
      · exact hb x hx'

/-- `sortBy` sorts, for a transitive total relation. -/
theorem pairwise_sortBy {α : Type} (le : α → α → Bool)
    (htrans : ∀ a b c, le a b = true → le b c = true → le a c = true)
    (htotal : ∀ a b, (le a b || le b a) = true) (l : List α) :
    (sortBy le l).Pairwise fun x y => le x y = true := by
  induction l with
  | nil => simp [sortBy]
  | cons a t ih =>
    rw [sortBy]
    exact pairwise_insertBy le htrans htotal a (sortBy le t) ih

/-- Counting over `all_results` splits into a winner-side and a loser-side
count over `game_results`. -/
theorem countP_lb_all_results (R : List ResultRow) (p : PRow → Bool) :
    (lb_all_results R).countP p =
      R.countP (fun r => p ⟨r.winner_id, r.winner_name, some r.result⟩) +
      R.countP (fun r => p ⟨r.loser_id, r.loser_name, none⟩ && (r.result == "WIN")) := by
  rw [lb_all_results, List.countP_append, List.countP_map, List.countP_map,
    List.countP_filter]
  rfl

/-- Counting over the leaderboard `game_results` CTE splits into the four
UNION ALL branches, each a guarded count over the table. -/
theorem countP_lb_game_results (yearOf : Nat → Nat) (today : Nat)
    (db : List GameRow) (p : ResultRow → Bool) :
    (lb_game_results yearOf today db).countP p =
      db.countP (fun g => (cty yearOf today g && p1Beats g) &&
        p ⟨some g.player1_id, g.player2_id, some g.player1_name, g.player2_name, "WIN"⟩) +
      db.countP (fun g => (cty yearOf today g && p2Beats g) &&
        p ⟨g.player2_id, some g.player1_id, g.player2_name, some g.player1_name, "WIN"⟩) +
      db.countP (fun g => (cty yearOf today g && drawRow g) &&
        p ⟨some g.player1_id, g.player2_id, some g.player1_name, g.player2_name, "DRAW"⟩) +
      db.countP (fun g => (cty yearOf today g && drawRow g) &&
        p ⟨g.player2_id, some g.player1_id, g.player2_name, some g.player1_name, "DRAW"⟩) := by
  rw [lb_game_results, List.countP_append, List.countP_append,
    List.countP_append, countP_filterMap_if, countP_filterMap_if,
    countP_filterMap_if, countP_filterMap_if]

/-- The pipeline win count of a group equals the direct count over the
table. -/
theorem keyWins_eq (yearOf : Nat → Nat) (today : Nat) (db : List GameRow)
    (k : Option String × Option String) :
    keyWins (lb_all_results (lb_game_results yearOf today db)) k =
      winCount yearOf today db k.1 k.2 := by
  have hDW : ((some "DRAW" : Option String) == some "WIN") = false := by simp
  have hNW : ((none : Option String) == some "WIN") = false := by simp
  rw [keyWins, countP_lb_all_results, countP_lb_game_results,
    countP_lb_game_results, winCount]
  simp only [hDW, hNW, beq_self_eq_true, Bool.and_true, Bool.and_false,
    Bool.false_and, List.countP_false, Function.const_apply, Bool.and_assoc]
  omega

/-- The pipeline loss count of a group equals the direct count over the
table. -/
theorem keyLosses_eq (yearOf : Nat → Nat) (today : Nat) (db : List GameRow)
    (k : Option String × Option String) :
    keyLosses (lb_all_results (lb_game_results yearOf today db)) k =
      lossCount yearOf today db k.1 k.2 := by
  have hWN : ((some "WIN" : Option String) == none) = false := by simp
  have hDN : ((some "DRAW" : Option String) == none) = false := by simp
  have hNN : ((none : Option String) == (none : Option String)) = true := by simp
  have hDW : (("DRAW" : String) == "WIN") = false := by simp
  rw [keyLosses, countP_lb_all_results, countP_lb_game_results,
    countP_lb_game_results, lossCount]
  simp only [hWN, hDN, hNN, hDW, beq_self_eq_true, Bool.and_true,
    Bool.and_false, Bool.false_and, List.countP_false, Function.const_apply,
    Bool.and_assoc]
  omega

/-- The pipeline draw count of a group equals the direct count over the
table. -/
theorem keyDraws_eq (yearOf : Nat → Nat) (today : Nat) (db : List GameRow)
    (k : Option String × Option String) :
    keyDraws (lb_all_results (lb_game_results yearOf today db)) k =
      drawCount yearOf today db k.1 k.2 := by
  have hWD : ((some "WIN" : Option String) == some "DRAW") = false := by simp
  have hND : ((none : Option String) == some "DRAW") = false := by simp
  rw [keyDraws, countP_lb_all_results, countP_lb_game_results,
    countP_lb_game_results, drawCount]
  simp only [hWD, hND, beq_self_eq_true, Bool.and_true, Bool.and_false,
    Bool.false_and, List.countP_false, Function.const_apply, Bool.and_assoc]
  omega

/-- Membership in `get_leaderboard`, unfolded to the group key it came
from. -/
theorem mem_get_leaderboard (yearOf : Nat → Nat) (today : Nat)
    (db : List GameRow) (e : LBEntry) :
    e ∈ get_leaderboard yearOf today db ↔
      ∃ k ∈ ((lb_all_results (lb_game_results yearOf today db)).map
          fun r => (r.player_id, r.player_name)).dedup,
        5 ≤ keyWins (lb_all_results (lb_game_results yearOf today db)) k +
            keyLosses (lb_all_results (lb_game_results yearOf today db)) k +
            keyDraws (lb_all_results (lb_game_results yearOf today db)) k ∧
        e = ⟨k.1, k.2,
          keyWins (lb_all_results (lb_game_results yearOf today db)) k,
          keyLosses (lb_all_results (lb_game_results yearOf today db)) k,
          keyDraws (lb_all_results (lb_game_results yearOf today db)) k,
          lbWinRate (keyWins (lb_all_results (lb_game_results yearOf today db)) k)
            (keyLosses (lb_all_results (lb_game_results yearOf today db)) k)⟩ := by
  rw [get_leaderboard]
  rw [mem_sortBy, List.mem_filterMap]
  constructor
  · rintro ⟨k, hk, hsome⟩
    rw [Option.ite_none_right_eq_some] at hsome
    exact ⟨k, hk, hsome.1, (Option.some_injective _ hsome.2).symm⟩
  · rintro ⟨k, hk, hle, rfl⟩
    exact ⟨k, hk, by rw [Option.ite_none_right_eq_some]; exact ⟨hle, rfl⟩⟩

/-- C5 (amended): every leaderboard entry carries the actual win, loss and
draw counts of its `(player_id, player_name)` group over this year's
completed games (a draw counted once per participant), its qualification
`wins + losses + draws ≥ 5` holds, its reported rate is
`wins/(wins+losses)` rounded to one decimal — and 0 whenever `wins = 0` or
`losses = 0` — and the list is sorted by win rate, then wins, then
decisive games (`wins + losses`), all descending. -/
theorem leaderboard_entries_spec (yearOf : Nat → Nat) (today : Nat)
    (db : List GameRow) :
    (∀ e ∈ get_leaderboard yearOf today db,
      e.wins = winCount yearOf today db e.player_id e.user_name ∧
      e.losses = lossCount yearOf today db e.player_id e.user_name ∧
      e.draws = drawCount yearOf today db e.player_id e.user_name ∧
      5 ≤ e.wins + e.losses + e.draws ∧
      e.win_rate = lbWinRate e.wins e.losses) ∧
    (get_leaderboard yearOf today db).Pairwise fun a b => lbLE a b = true := by
  constructor
  · intro e he
    obtain ⟨k, -, hle, rfl⟩ := (mem_get_leaderboard yearOf today db e).mp he
    refine ⟨?_, ?_, ?_, hle, rfl⟩
    · exact keyWins_eq yearOf today db k
    · exact keyLosses_eq yearOf today db k
    · exact keyDraws_eq yearOf today db k
  · rw [get_leaderboard]
    exact pairwise_sortBy lbLE lbLE_trans lbLE_total _

/-- Witness for `leaderboard_entries_spec`, instantiated at player A's
entry of the five-game season. -/
theorem leaderboard_entries_spec_witness :
    (⟨some "A", some "alice", 3, 1, 1, 750⟩ : LBEntry).wins =
      winCount yr0 0 exSeasonDb (some "A") (some "alice") ∧
    (⟨some "A", some "alice", 3, 1, 1, 750⟩ : LBEntry).losses =
      lossCount yr0 0 exSeasonDb (some "A") (some "alice") ∧
    (⟨some "A", some "alice", 3, 1, 1, 750⟩ : LBEntry).draws =
      drawCount yr0 0 exSeasonDb (some "A") (some "alice") ∧
    5 ≤ (3 : Nat) + 1 + 1 ∧
    (750 : Nat) = lbWinRate 3 1 :=
  (leaderboard_entries_spec yr0 0 exSeasonDb).1
    ⟨some "A", some "alice", 3, 1, 1, 750⟩ (by decide)

/-- C5 counterexample: with 3 wins, 1 loss and 1 draw, the leaderboard
reports a win rate of 75.0% (wins over decisive games), not the claimed
wins over all games `3/5 = 60.0%`. -/
theorem leaderboard_win_rate_cex :
    ∃ e ∈ get_leaderboard yr0 0 exSeasonDb, e.player_id = some "A" ∧
      e.wins = 3 ∧ e.losses = 1 ∧ e.draws = 1 ∧ e.win_rate = 750 ∧
      e.win_rate ≠ roundPct1 e.wins (e.wins + e.losses + e.draws) := by
  decide

/-- The unranked pipeline count of a player id equals the direct
participation count. -/
theorem urCount_eq (yearOf : Nat → Nat) (today : Nat) (db : List GameRow)
    (i : String) :
    urCount (ur_rows yearOf today db) (some i) = particCount yearOf today db i := by
  rw [urCount, ur_rows, List.countP_append, countP_filterMap_if,
    countP_filterMap_if, particCount]
  congr 1
  apply List.countP_congr
  intro g _
  cases hp : g.player2_id with
  | none => simp [hp]
  | some x => simp [hp]

/-- Every participation row carries a non-null player id. -/
theorem ur_rows_id_isSome (yearOf : Nat → Nat) (today : Nat)
    (db : List GameRow) :
    ∀ r ∈ ur_rows yearOf today db, r.player_id.isSome = true := by
  intro r hr
  rw [ur_rows] at hr
  rcases List.mem_append.mp hr with h | h
  · obtain ⟨g, -, hsome⟩ := List.mem_filterMap.mp h
    rw [Option.ite_none_right_eq_some] at hsome
    obtain ⟨-, heq⟩ := hsome
    obtain rfl := Option.some_injective _ heq
    rfl
  · obtain ⟨g, -, hsome⟩ := List.mem_filterMap.mp h
    rw [Option.ite_none_right_eq_some] at hsome
    obtain ⟨hguard, heq⟩ := hsome
    obtain rfl := Option.some_injective _ heq
    rw [Bool.and_eq_true] at hguard
    exact hguard.2

/-- Membership in `get_unranked_players`, unfolded to the id group it came
from. -/
theorem mem_get_unranked_players (yearOf : Nat → Nat) (today : Nat)
    (db : List GameRow) (u : UREntry) :
    u ∈ get_unranked_players yearOf today db ↔
      ∃ pid ∈ ((ur_rows yearOf today db).map fun r => r.player_id).dedup,
        urCount (ur_rows yearOf today db) pid < 5 ∧
        u = ⟨pid, sqlMaxName (ur_rows yearOf today db) pid,
             urCount (ur_rows yearOf today db) pid,
             5 - urCount (ur_rows yearOf today db) pid⟩ := by
  rw [get_unranked_players]
  rw [mem_sortBy, List.mem_filterMap]
  constructor
  · rintro ⟨pid, hpid, hsome⟩
    rw [Option.ite_none_right_eq_some] at hsome
    exact ⟨pid, hpid, hsome.1, (Option.some_injective _ hsome.2).symm⟩
  · rintro ⟨pid, hpid, hlt, rfl⟩
    exact ⟨pid, hpid, by rw [Option.ite_none_right_eq_some]; exact ⟨hlt, rfl⟩⟩

/-- When every player id carries a single display name `nm`, every
`game_results` row's winner and loser names agree with `nm`. -/
theorem lb_game_results_names (yearOf : Nat → Nat) (today : Nat)
    (db : List GameRow) (nm : String → String)
    (hnm : ∀ g ∈ db, cty yearOf today g = true →
      g.player1_name = nm g.player1_id ∧
      ∀ x, g.player2_id = some x → g.player2_name = some (nm x)) :
    ∀ r ∈ lb_game_results yearOf today db,
      (∀ i, r.winner_id = some i → r.winner_name = some (nm i)) ∧
      (∀ i, r.loser_id = some i → r.loser_name = some (nm i)) := by
  intro r hr
  rw [lb_game_results] at hr
  rcases List.mem_append.mp hr with h123 | h
  · rcases List.mem_append.mp h123 with h12 | h
    · rcases List.mem_append.mp h12 with h | h
      · obtain ⟨g, hg, hsome⟩ := List.mem_filterMap.mp h
        rw [Option.ite_none_right_eq_some] at hsome
        obtain ⟨hguard, heq⟩ := hsome
        rw [Bool.and_eq_true] at hguard
        obtain ⟨hn1, hn2⟩ := hnm g hg hguard.1
        obtain rfl := Option.some_injective _ heq
        refine ⟨?_, ?_⟩
        · intro i hi
          obtain rfl := Option.some_injective _ hi
          rw [hn1]
        · intro i hi
          exact hn2 i hi
      · obtain ⟨g, hg, hsome⟩ := List.mem_filterMap.mp h
        rw [Option.ite_none_right_eq_some] at hsome
        obtain ⟨hguard, heq⟩ := hsome
        rw [Bool.and_eq_true] at hguard
        obtain ⟨hn1, hn2⟩ := hnm g hg hguard.1
        obtain rfl := Option.some_injective _ heq
        refine ⟨?_, ?_⟩
        · intro i hi
          exact hn2 i hi
        · intro i hi
          obtain rfl := Option.some_injective _ hi
          rw [hn1]
    · obtain ⟨g, hg, hsome⟩ := List.mem_filterMap.mp h
      rw [Option.ite_none_right_eq_some] at hsome
      obtain ⟨hguard, heq⟩ := hsome
      rw [Bool.and_eq_true] at hguard
      obtain ⟨hn1, hn2⟩ := hnm g hg hguard.1
      obtain rfl := Option.some_injective _ heq
      refine ⟨?_, ?_⟩
      · intro i hi
        obtain rfl := Option.some_injective _ hi
        rw [hn1]
      · intro i hi
        exact hn2 i hi
  · obtain ⟨g, hg, hsome⟩ := List.mem_filterMap.mp h
    rw [Option.ite_none_right_eq_some] at hsome
    obtain ⟨hguard, heq⟩ := hsome
    rw [Bool.and_eq_true] at hguard
    obtain ⟨hn1, hn2⟩ := hnm g hg hguard.1
    obtain rfl := Option.some_injective _ heq
    refine ⟨?_, ?_⟩
    · intro i hi
      exact hn2 i hi
    · intro i hi
      obtain rfl := Option.some_injective _ hi
      rw [hn1]

/-- Name coherence lifted to `all_results` rows. -/
theorem lb_all_results_names (yearOf : Nat → Nat) (today : Nat)
    (db : List GameRow) (nm : String → String)
    (hnm : ∀ g ∈ db, cty yearOf today g = true →
      g.player1_name = nm g.player1_id ∧
      ∀ x, g.player2_id = some x → g.player2_name = some (nm x)) :
    ∀ r ∈ lb_all_results (lb_game_results yearOf today db),
      ∀ i, r.player_id = some i → r.player_name = some (nm i) := by
  intro r hr i hi
  rw [lb_all_results] at hr
  rcases List.mem_append.mp hr with h | h
  · obtain ⟨r0, hr0, heq⟩ := List.mem_map.mp h
    have hnames := lb_game_results_names yearOf today db nm hnm r0 hr0
    subst heq
    exact hnames.1 i hi
  · obtain ⟨r0, hr0, heq⟩ := List.mem_map.mp h
    have hnames := lb_game_results_names yearOf today db nm hnm r0
      (List.mem_filter.mp hr0).1
    subst heq
    exact hnames.2 i hi

/-- A group key with a positive win, loss or draw count occurs among the
deduplicated keys. -/
theorem key_mem_of_counts_pos (rows : List PRow)
    (k : Option String × Option String)
    (h : 0 < keyWins rows k + keyLosses rows k + keyDraws rows k) :
    k ∈ ((rows.map fun r => (r.player_id, r.player_name)).dedup) := by
  rw [List.mem_dedup]
  have hex : ∃ r ∈ rows, r.player_id = k.1 ∧ r.player_name = k.2 := by
    have h3 : 0 < keyWins rows k ∨ 0 < keyLosses rows k ∨
        0 < keyDraws rows k := by omega
    rcases h3 with hp | hp | hp
    · obtain ⟨r, hr, hpred⟩ := List.countP_pos_iff.mp hp
      simp only [Bool.and_eq_true, beq_iff_eq] at hpred
      exact ⟨r, hr, hpred.1.1, hpred.1.2⟩
    · obtain ⟨r, hr, hpred⟩ := List.countP_pos_iff.mp hp
      simp only [Bool.and_eq_true, beq_iff_eq] at hpred
      exact ⟨r, hr, hpred.1.1, hpred.1.2⟩
    · obtain ⟨r, hr, hpred⟩ := List.countP_pos_iff.mp hp
      simp only [Bool.and_eq_true, beq_iff_eq] at hpred
      exact ⟨r, hr, hpred.1.1, hpred.1.2⟩
  obtain ⟨r, hr, h1, h2⟩ := hex
  exact List.mem_map.mpr ⟨r, hr, by rw [h1, h2]⟩

/-- On gesture-valued moves, exactly one of the three SQL result classes
holds. -/
theorem class_trichotomy (g : GameRow)
    (hm1 : g.player1_move = "ROCK" ∨ g.player1_move = "PAPER" ∨
      g.player1_move = "SCISSORS")
    (hm2 : g.player2_move = some "ROCK" ∨ g.player2_move = some "PAPER" ∨
      g.player2_move = some "SCISSORS") :
    (p1Beats g = true ∧ p2Beats g = false ∧ drawRow g = false) ∨
    (p1Beats g = false ∧ p2Beats g = true ∧ drawRow g = false) ∨
    (p1Beats g = false ∧ p2Beats g = false ∧ drawRow g = true) := by
  rcases hm1 with h1 | h1 | h1 <;> rcases hm2 with h2 | h2 | h2 <;>
    simp [p1Beats, p2Beats, drawRow, h1, h2]

/-- `winCount` over a cons. -/
theorem winCount_cons (yearOf : Nat → Nat) (today : Nat) (g : GameRow)
    (db : List GameRow) (pid pname : Option String) :
    winCount yearOf today (g :: db) pid pname =
      ((if (cty yearOf today g && p1Beats g &&
          (some g.player1_id == pid) && (some g.player1_name == pname)) = true
        then 1 else 0) +
       (if (cty yearOf today g && p2Beats g &&
          (g.player2_id == pid) && (g.player2_name == pname)) = true
        then 1 else 0)) + winCount yearOf today db pid pname := by
  simp only [winCount, List.countP_cons]
  omega

/-- `lossCount` over a cons. -/
theorem lossCount_cons (yearOf : Nat → Nat) (today : Nat) (g : GameRow)
    (db : List GameRow) (pid pname : Option String) :
    lossCount yearOf today (g :: db) pid pname =
      ((if (cty yearOf today g && p1Beats g &&
          (g.player2_id == pid) && (g.player2_name == pname)) = true
        then 1 else 0) +
       (if (cty yearOf today g && p2Beats g &&
          (some g.player1_id == pid) && (some g.player1_name == pname)) = true
        then 1 else 0)) + lossCount yearOf today db pid pname := by
  simp only [lossCount, List.countP_cons]
  omega

/-- `drawCount` over a cons. -/
theorem drawCount_cons (yearOf : Nat → Nat) (today : Nat) (g : GameRow)
    (db : List GameRow) (pid pname : Option String) :
    drawCount yearOf today (g :: db) pid pname =
      ((if (cty yearOf today g && drawRow g &&
          (some g.player1_id == pid) && (some g.player1_name == pname)) = true
        then 1 else 0) +
       (if (cty yearOf today g && drawRow g &&
          (g.player2_id == pid) && (g.player2_name == pname)) = true
        then 1 else 0)) + drawCount yearOf today db pid pname := by
  simp only [drawCount, List.countP_cons]
  omega

/-- `particCount` over a cons. -/
theorem particCount_cons (yearOf : Nat → Nat) (today : Nat) (g : GameRow)
    (db : List GameRow) (i : String) :
    particCount yearOf today (g :: db) i =
      ((if (cty yearOf today g && (g.player1_id == i)) = true then 1 else 0) +
       (if (cty yearOf today g && (g.player2_id == some i)) = true
        then 1 else 0)) + particCount yearOf today db i := by
  simp only [particCount, List.countP_cons]
  omega

/-- Under a single display name per player id and gesture-valued moves,
the per-player win + loss + draw total of the leaderboard grouping equals
the participation count. -/
theorem totals_eq (yearOf : Nat → Nat) (today : Nat) (nm : String → String)
    (i : String) :
    ∀ db : List GameRow,
      (∀ g ∈ db, cty yearOf today g = true →
        g.player1_name = nm g.player1_id ∧
        ∀ x, g.player2_id = some x → g.player2_name = some (nm x)) →
      (∀ g ∈ db, cty yearOf today g = true →
        g.player2_id.isSome = true ∧
        (g.player1_move = "ROCK" ∨ g.player1_move = "PAPER" ∨
          g.player1_move = "SCISSORS") ∧
        (g.player2_move = some "ROCK" ∨ g.player2_move = some "PAPER" ∨
          g.player2_move = some "SCISSORS")) →
      winCount yearOf today db (some i) (some (nm i)) +
        lossCount yearOf today db (some i) (some (nm i)) +
        drawCount yearOf today db (some i) (some (nm i)) =
        particCount yearOf today db i := by
  intro db
  induction db with
  | nil => intro _ _; rfl
  | cons g tdb ih =>
    intro hnm hwf
    have ih' := ih (fun g' hg' => hnm g' (List.mem_cons_of_mem _ hg'))
      (fun g' hg' => hwf g' (List.mem_cons_of_mem _ hg'))
    rw [winCount_cons, lossCount_cons, drawCount_cons, particCount_cons]
    have hhead :
        ((if (cty yearOf today g && p1Beats g &&
            (some g.player1_id == some i) &&
            (some g.player1_name == some (nm i))) = true then 1 else 0) +
         (if (cty yearOf today g && p2Beats g &&
            (g.player2_id == some i) &&
            (g.player2_name == some (nm i))) = true then 1 else 0)) +
        ((if (cty yearOf today g && p1Beats g &&
            (g.player2_id == some i) &&
            (g.player2_name == some (nm i))) = true then 1 else 0) +
         (if (cty yearOf today g && p2Beats g &&
            (some g.player1_id == some i) &&
            (some g.player1_name == some (nm i))) = true then 1 else 0)) +
        ((if (cty yearOf today g && drawRow g &&
            (some g.player1_id == some i) &&
            (some g.player1_name == some (nm i))) = true then 1 else 0) +
         (if (cty yearOf today g && drawRow g &&
            (g.player2_id == some i) &&
            (g.player2_name == some (nm i))) = true then 1 else 0)) =
        ((if (cty yearOf today g && (g.player1_id == i)) = true then 1 else 0) +
         (if (cty yearOf today g && (g.player2_id == some i)) = true
          then 1 else 0)) := by
      by_cases hc : cty yearOf today g = true
      · obtain ⟨hn1, hn2⟩ := hnm g (List.mem_cons_self _ _) hc
        obtain ⟨hp2, hm1, hm2⟩ := hwf g (List.mem_cons_self _ _) hc
        obtain ⟨y, hy⟩ := Option.isSome_iff_exists.mp hp2
        have hn2y : g.player2_name = some (nm y) := hn2 y hy
        rcases class_trichotomy g hm1 hm2 with ⟨hb1, hb2, hbd⟩ |
          ⟨hb1, hb2, hbd⟩ | ⟨hb1, hb2, hbd⟩ <;>
          by_cases hi1 : g.player1_id = i <;> by_cases hi2 : y = i <;>
          simp [hc, hb1, hb2, hbd, hy, hn1, hn2y, hi1, hi2]
      · have hc' : cty yearOf today g = false := Bool.eq_false_iff.mpr hc
        simp [hc']
    omega

/-- C6 (amended): provided every completed current-year row is well formed
(player-2 fields set, gesture-valued moves) and every player id appears
under a single display name `nm`, the leaderboard contains exactly the
players with at least 5 completed games this year, the unranked list
exactly those with 1 to 4; the two are disjoint and jointly exhaustive
over the players of at least one completed game; each unranked entry
reports its games played and `5 - games_played`, and the unranked list is
sorted by games played descending. -/
theorem leaderboard_unranked_partition (yearOf : Nat → Nat) (today : Nat)
    (db : List GameRow) (nm : String → String)
    (hnm : ∀ g ∈ db, cty yearOf today g = true →
      g.player1_name = nm g.player1_id ∧
      ∀ x, g.player2_id = some x → g.player2_name = some (nm x))
    (hwf : ∀ g ∈ db, cty yearOf today g = true →
      g.player2_id.isSome = true ∧
      (g.player1_move = "ROCK" ∨ g.player1_move = "PAPER" ∨
        g.player1_move = "SCISSORS") ∧
      (g.player2_move = some "ROCK" ∨ g.player2_move = some "PAPER" ∨
        g.player2_move = some "SCISSORS")) :
    (∀ i : String,
      ((∃ e ∈ get_leaderboard yearOf today db, e.player_id = some i) ↔
        5 ≤ particCount yearOf today db i) ∧
      ((∃ u ∈ get_unranked_players yearOf today db, u.player_id = some i) ↔
        (1 ≤ particCount yearOf today db i ∧
         particCount yearOf today db i < 5)) ∧
      (¬((∃ e ∈ get_leaderboard yearOf today db, e.player_id = some i) ∧
         (∃ u ∈ get_unranked_players yearOf today db, u.player_id = some i))) ∧
      (((∃ e ∈ get_leaderboard yearOf today db, e.player_id = some i) ∨
        (∃ u ∈ get_unranked_players yearOf today db, u.player_id = some i)) ↔
        1 ≤ particCount yearOf today db i)) ∧
    (∀ u ∈ get_unranked_players yearOf today db,
      ∃ i, u.player_id = some i ∧
        u.games_played = particCount yearOf today db i ∧
        u.games_needed = 5 - u.games_played) ∧
    (get_unranked_players yearOf today db).Pairwise
      fun a b => urLE a b = true := by
  have htot : ∀ i : String,
      winCount yearOf today db (some i) (some (nm i)) +
        lossCount yearOf today db (some i) (some (nm i)) +
        drawCount yearOf today db (some i) (some (nm i)) =
        particCount yearOf today db i :=
    fun i => totals_eq yearOf today nm i db hnm hwf
  have hLB : ∀ i : String,
      (∃ e ∈ get_leaderboard yearOf today db, e.player_id = some i) ↔
        5 ≤ particCount yearOf today db i := by
    intro i
    constructor
    · rintro ⟨e, he, hei⟩
      obtain ⟨k, hk, hle, rfl⟩ :=
        (mem_get_leaderboard yearOf today db e).mp he
      have hk1 : k.1 = some i := hei
      have hk2 : k.2 = some (nm i) := by
        obtain ⟨r, hr, hkeq⟩ := List.mem_map.mp (List.mem_dedup.mp hk)
        have h1 : r.player_id = k.1 := by rw [← hkeq]
        have h2 : r.player_name = k.2 := by rw [← hkeq]
        rw [← h2]
        exact lb_all_results_names yearOf today db nm hnm r hr i
          (h1.trans hk1)
      have hkpair : k = (some i, some (nm i)) := by
        rw [Prod.ext_iff]
        exact ⟨hk1, hk2⟩
      rw [hkpair, keyWins_eq, keyLosses_eq, keyDraws_eq] at hle
      calc 5 ≤ _ := hle
        _ = particCount yearOf today db i := htot i
    · intro hge
      have hpos : 0 <
          keyWins (lb_all_results (lb_game_results yearOf today db))
            ((some i : Option String), (some (nm i) : Option String)) +
          keyLosses (lb_all_results (lb_game_results yearOf today db))
            (some i, some (nm i)) +
          keyDraws (lb_all_results (lb_game_results yearOf today db))
            (some i, some (nm i)) := by
        rw [keyWins_eq, keyLosses_eq, keyDraws_eq]
        dsimp only
        have := htot i
        omega
      have hk := key_mem_of_counts_pos _ _ hpos
      refine ⟨_, (mem_get_leaderboard yearOf today db _).mpr
        ⟨(some i, some (nm i)), hk, ?_, rfl⟩, rfl⟩
      rw [keyWins_eq, keyLosses_eq, keyDraws_eq]
      dsimp only
      have := htot i
      omega
  have hUR : ∀ i : String,
      (∃ u ∈ get_unranked_players yearOf today db, u.player_id = some i) ↔
        (1 ≤ particCount yearOf today db i ∧
         particCount yearOf today db i < 5) := by
    intro i
    constructor
    · rintro ⟨u, hu, hui⟩
      obtain ⟨pid, hpid, hlt, rfl⟩ :=
        (mem_get_unranked_players yearOf today db u).mp hu
      have hpid' : pid = some i := hui
      subst hpid'
      rw [urCount_eq] at hlt
      refine ⟨?_, hlt⟩
      obtain ⟨r, hr, hreq⟩ := List.mem_map.mp (List.mem_dedup.mp hpid)
      have hpos : 0 < urCount (ur_rows yearOf today db) (some i) :=
        List.countP_pos_iff.mpr ⟨r, hr, by simp [hreq]⟩
      rw [urCount_eq] at hpos
      omega
    · rintro ⟨h1, h5⟩
      have hpos : 0 < urCount (ur_rows yearOf today db) (some i) := by
        rw [urCount_eq]
        omega
      obtain ⟨r, hr, hpred⟩ := List.countP_pos_iff.mp hpos
      have hrid : r.player_id = some i := by simpa using hpred
      refine ⟨_, (mem_get_unranked_players yearOf today db _).mpr
        ⟨some i, List.mem_dedup.mpr (List.mem_map.mpr ⟨r, hr, hrid⟩),
         ?_, rfl⟩, rfl⟩
      rw [urCount_eq]
      omega
  refine ⟨fun i => ⟨hLB i, hUR i, ?_, ?_⟩, ?_, ?_⟩
  · rintro ⟨ha, hb⟩
    rw [hLB i] at ha
    rw [hUR i] at hb
    omega
  · constructor
    · rintro (h | h)
      · rw [hLB i] at h
        omega
      · rw [hUR i] at h
        omega
    · intro h1
      by_cases h5 : 5 ≤ particCount yearOf today db i
      · exact Or.inl ((hLB i).mpr h5)
      · exact Or.inr ((hUR i).mpr ⟨h1, by omega⟩)
  · intro u hu
    obtain ⟨pid, hpid, hlt, rfl⟩ :=
      (mem_get_unranked_players yearOf today db u).mp hu
    obtain ⟨r, hr, hreq⟩ := List.mem_map.mp (List.mem_dedup.mp hpid)
    have hsome := ur_rows_id_isSome yearOf today db r hr
    obtain ⟨i, hi⟩ := Option.isSome_iff_exists.mp hsome
    have hpid' : pid = some i := by rw [← hreq, hi]
    subst hpid'
    exact ⟨i, rfl, by rw [urCount_eq], rfl⟩
  · rw [get_unranked_players]
    exact pairwise_sortBy urLE urLE_trans urLE_total _

/-- Witness for `leaderboard_unranked_partition`: with consistent names, A
(5 completed games this season) appears on the leaderboard. -/
theorem leaderboard_unranked_partition_witness :
    ∃ e ∈ get_leaderboard yr0 0 exSeasonDb, e.player_id = some "A" :=
  (((leaderboard_unranked_partition yr0 0 exSeasonDb nmEx (by decide)
    (by decide)).1 "A").1).mpr (by decide)

/-- C6 counterexample: U1 has five completed games this year, but recorded
under two display names; the leaderboard (grouping by id *and* name) drops
both sub-5 groups while the unranked query (grouping by id alone) filters
U1 out as having 5 games — so U1 appears in neither list. -/
theorem leaderboard_unranked_not_exhaustive_cex :
    (∀ e ∈ get_leaderboard yr0 0 exSplitNameDb, e.player_id ≠ some "U1") ∧
    (∀ u ∈ get_unranked_players yr0 0 exSplitNameDb, u.player_id ≠ some "U1") ∧
    particCount yr0 0 exSplitNameDb "U1" = 5 := by
  decide

/-- C8: for a user with one completed decisive game and no draws this
year, `get_user_stats` reports `nemesis = None` but `most_draws` as a
record whose fields are all NULL — the `most_draws` dict is built without
the `if most_draws_id else None` guard its two siblings have. -/
theorem user_stats_most_draws_not_none :
    (get_user_stats yr0 0 "A" exOneWinDb).draws = 0 ∧
    (get_user_stats yr0 0 "A" exOneWinDb).most_draws = some ⟨none, none, none⟩ ∧
    (get_user_stats yr0 0 "A" exOneWinDb).nemesis = none ∧
    (get_user_stats yr0 0 "A" exOneWinDb).best_against =
      some ⟨some "B", some "bob", 1⟩ := by
  decide

end Shifumi
